import Mathlib

/-!
Shallow embedding of `deep_sort/track.py`: the `Track` entity, its lifecycle
state machine (Tentative / Confirmed / Deleted), the predict / update /
mark_missed operations, the geometry accessors `to_tlwh` / `to_tlbr`, and the
color-majority confirmation and rollback logic.

Machine floats of the source are modelled over `ℚ`. The external Kalman filter
is an opaque pair of functions, as the source treats it. Python attributes that
are only created inside `predict` (`last_mean`, `last_covariance`) are modelled
as `Option` fields starting at `none`; an update that reads them while absent
returns an `AttributeError`, as CPython would raise. Python's
`max(set(colors), key=colors.count)` iterates the set in an unspecified,
hash-dependent order; that order is modelled as an explicit list parameter `o`
which theorems quantify over or instantiate.
-/

namespace DeepSort

/-- Appearance feature vector of a detection (opaque payload, only appended). -/
abbrev Feature := List ℚ

/-- 8×8 covariance matrix; the Track never looks inside it, it only threads it
through the Kalman filter and snapshots it. -/
abbrev Covariance := List (List ℚ)

/-- The 8-vector `mean`: center (x, y), aspect ratio a, height h, and their
velocities. Only the first four components are read by the Track itself. -/
structure Mean8 where
  x : ℚ
  y : ℚ
  a : ℚ
  h : ℚ
  vx : ℚ
  vy : ℚ
  va : ℚ
  vh : ℚ
  deriving DecidableEq, Repr

/-- A 4-component box vector (used for tlwh, tlbr and xyah measurements). -/
structure Vec4 where
  c0 : ℚ
  c1 : ℚ
  c2 : ℚ
  c3 : ℚ
  deriving DecidableEq, Repr

/-- Enumeration `TrackState` from the source: Tentative = 1, Confirmed = 2,
Deleted = 3. -/
inductive TrackState where
  | Tentative
  | Confirmed
  | Deleted
  deriving DecidableEq, Repr

/-- Modelled from the spec: `detection.py` is not under `src/`; per the spec a
detection carries a bounding box whose position is encoded by `to_xyah()` as
(center-x, center-y, aspect-ratio, height), an appearance feature vector, and
an optional color label. -/
structure Detection where
  xyah : Vec4
  feature : Feature
  color : Option String

/-- Modelled from the spec: `Detection.to_xyah` returns the detection's
position as (center-x, center-y, aspect-ratio, height). -/
def Detection.to_xyah (d : Detection) : Vec4 := d.xyah

/-- The external Kalman filter, an opaque service exposing the two transforms
the Track calls (`kf.predict`, `kf.update`). -/
structure KalmanFilter where
  predictFn : Mean8 → Covariance → Mean8 × Covariance
  updateFn : Mean8 → Covariance → Vec4 → Mean8 × Covariance

/-- The `Track` object's mutable attributes, as set up by `Track.__init__` and
mutated by `predict` / `update` / `mark_missed`. `hits` is a Python `int`,
hence `ℤ`. -/
structure Track where
  mean : Mean8
  covariance : Covariance
  track_id : ℕ
  hits : ℤ
  age : ℕ
  time_since_update : ℕ
  state : TrackState
  features : List Feature
  n_init : ℤ
  max_age : ℕ
  class_name : Option String
  colors : List String
  color_confirmed : Bool
  confirmed_color : Option String
  last_mean : Option Mean8
  last_covariance : Option Covariance
  deriving DecidableEq, Repr

/-- `Track.__init__(mean, covariance, track_id, n_init, max_age, feature,
class_name, color)`. -/
def Track.init (mean : Mean8) (covariance : Covariance) (track_id : ℕ)
    (n_init : ℤ) (max_age : ℕ) (feature : Option Feature)
    (class_name : Option String) (color : Option String) : Track where
  mean := mean
  covariance := covariance
  track_id := track_id
  hits := 1
  age := 1
  time_since_update := 0
  state := TrackState.Tentative
  features := match feature with | none => [] | some f => [f]
  n_init := n_init
  max_age := max_age
  class_name := class_name
  colors := match color with | none => [] | some c => [c]
  color_confirmed := false
  confirmed_color := none
  last_mean := none
  last_covariance := none

/-- The tlwh computation of `Track.to_tlwh` on a raw (x, y, a, h) vector:
`ret[2] *= ret[3]; ret[:2] -= ret[2:] / 2`. -/
def tlwhOfXyah (b : Vec4) : Vec4 :=
  ⟨b.c0 - b.c2 * b.c3 / 2, b.c1 - b.c3 / 2, b.c2 * b.c3, b.c3⟩

/-- The tlbr computation of `Track.to_tlbr` on a tlwh vector:
`ret[2:] = ret[:2] + ret[2:]`. -/
def tlbrOfTlwh (r : Vec4) : Vec4 :=
  ⟨r.c0, r.c1, r.c0 + r.c2, r.c1 + r.c3⟩

/-- `Track.to_tlwh`: current position as (top-left-x, top-left-y, width,
height), a pure projection of `mean[:4]`. -/
def Track.to_tlwh (t : Track) : Vec4 :=
  tlwhOfXyah ⟨t.mean.x, t.mean.y, t.mean.a, t.mean.h⟩

/-- `Track.to_tlbr`: current position as (min-x, min-y, max-x, max-y), derived
from `to_tlwh`. -/
def Track.to_tlbr (t : Track) : Vec4 :=
  tlbrOfTlwh t.to_tlwh

/-- Python's `max(iterable, key=key)` on the nonempty list `x :: xs`: the first
element attaining the maximal key wins. -/
def pyMaxBy (key : String → ℕ) (x : String) (xs : List String) : String :=
  xs.foldl (fun acc y => if key acc < key y then y else acc) x

/-- `Track.get_color`: the frozen `confirmed_color` once confirmed, otherwise
`max(set(self.colors), key=self.colors.count)` for nonempty `colors` and
`None` for empty. `o` is the iteration order of `set(self.colors)`, which
CPython leaves unspecified (hash-dependent); theorems constrain `o` by
`isSetOrder`. -/
def Track.get_color (t : Track) (o : List String) : Option String :=
  if t.color_confirmed then t.confirmed_color
  else
    match t.colors, o with
    | [], _ => none
    | _ :: _, [] => none
    | _ :: _, x :: xs => some (pyMaxBy (fun c => t.colors.count c) x xs)

/-- `o` enumerates exactly the distinct elements of `l`: a faithful model of
an iteration order of Python's `set(l)`. -/
def isSetOrder (o l : List String) : Prop :=
  o.Nodup ∧ ∀ x, x ∈ o ↔ x ∈ l

/-- `Track.predict(kf)`: Kalman prediction, age / time_since_update bump, the
`last_mean` / `last_covariance` snapshot, then the two deletion guards added
to the source (top / left boundary guard, then box-height size guard). -/
def Track.predict (kf : KalmanFilter) (t : Track) : Track :=
  let mc := kf.predictFn t.mean t.covariance
  let t1 : Track :=
    { t with
      mean := mc.1
      covariance := mc.2
      age := t.age + 1
      time_since_update := t.time_since_update + 1
      last_mean := some mc.1
      last_covariance := some mc.2 }
  if t1.to_tlbr.c1 < 40 ∨ t1.to_tlbr.c0 > 1918 then
    { t1 with state := TrackState.Deleted }
  else if t1.to_tlwh.c3 > 170 then
    { t1 with state := TrackState.Deleted }
  else t1

/-- First block of `Track.update`: the Kalman correction
`kf.update(mean, covariance, detection.to_xyah())` and the feature append. -/
def Track.applyMeasurement (kf : KalmanFilter) (det : Detection) (t : Track) :
    Track :=
  let mc := kf.updateFn t.mean t.covariance det.to_xyah
  { t with
    mean := mc.1
    covariance := mc.2
    features := t.features ++ [det.feature] }

/-- Color block of `Track.update`: if the detection carries a color, push it
(evicting `colors[0]` when the 300 cap is reached), and once more than 16
colors have accumulated on an unconfirmed track, freeze `get_color()` into
`confirmed_color`. `o` is the set-iteration order used by that `get_color`
call. -/
def Track.pushColor (o : List String) (det : Detection) (t : Track) : Track :=
  match det.color with
  | none => t
  | some c =>
    let cs := if t.colors.length < 300 then t.colors ++ [c]
              else t.colors.drop 1 ++ [c]
    let t1 : Track := { t with colors := cs }
    if t1.color_confirmed = false ∧ 16 < t1.colors.length then
      { t1 with
        confirmed_color := t1.get_color o
        color_confirmed := true }
    else t1

/-- Fall-through tail of `Track.update` (the accepted-update path): reset
`time_since_update`, increment `hits`, and confirm a Tentative track once
`hits >= n_init`. -/
def Track.updateAccept (t : Track) : Track :=
  let t1 : Track := { t with time_since_update := 0, hits := t.hits + 1 }
  if t1.state = TrackState.Tentative ∧ t1.n_init ≤ t1.hits then
    { t1 with state := TrackState.Confirmed }
  else t1

/-- `Track.update(kf, detection)`: Kalman correction, feature append, color
push / confirmation, then the rollback guard
`if self.color_confirmed and (self.confirmed_color != self.colors[-1])`:
pop the last color, restore `mean` / `covariance` from the snapshot, decrement
`hits` and return; otherwise the accepted-update tail runs. Reading
`colors[-1]` on an empty list or the never-created `last_mean` attribute
raises, modelled as `Except.error`. -/
def Track.update (o : List String) (kf : KalmanFilter) (det : Detection)
    (t : Track) : Except String Track :=
  let t2 := (t.applyMeasurement kf det).pushColor o det
  if t2.color_confirmed then
    match t2.colors.getLast? with
    | none => Except.error "IndexError"
    | some last =>
      if t2.confirmed_color ≠ some last then
        match t2.last_mean, t2.last_covariance with
        | some lm, some lc =>
          Except.ok
            { t2 with
              colors := t2.colors.dropLast
              mean := lm
              covariance := lc
              hits := t2.hits - 1 }
        | _, _ => Except.error "AttributeError"
      else Except.ok t2.updateAccept
  else Except.ok t2.updateAccept

/-- `Track.mark_missed()`: a Tentative track dies on any miss; otherwise the
track dies once `time_since_update` exceeds `max_age`. -/
def Track.mark_missed (t : Track) : Track :=
  if t.state = TrackState.Tentative then { t with state := TrackState.Deleted }
  else if t.time_since_update > t.max_age then
    { t with state := TrackState.Deleted }
  else t

/-- `Track.is_tentative()`. -/
def Track.is_tentative (t : Track) : Bool := t.state = TrackState.Tentative

/-- `Track.is_confirmed()`. -/
def Track.is_confirmed (t : Track) : Bool := t.state = TrackState.Confirmed

/-- `Track.is_deleted()`. -/
def Track.is_deleted (t : Track) : Bool := t.state = TrackState.Deleted

/-! ### Concrete fixtures for scenario runs and witnesses -/

/-- A benign mean: box center (100, 100), aspect 1, height 50, so the
predicted box stays inside every guard threshold. -/
def m0 : Mean8 := ⟨100, 100, 1, 50, 0, 0, 0, 0⟩

/-- A token covariance value (the Track never inspects it). -/
def cov0 : Covariance := [[1]]

/-- The identity Kalman filter: both transforms return their inputs, so
scenario runs are driven purely by the Track's own logic. -/
def idKF : KalmanFilter := ⟨fun m c => (m, c), fun m c _ => (m, c)⟩

/-- A colorless detection. -/
def det0 : Detection := ⟨⟨100, 100, 1, 50⟩, [0], none⟩

/-- A detection carrying color label `c`. -/
def detC (c : String) : Detection := ⟨⟨100, 100, 1, 50⟩, [0], some c⟩

/-- Feed a list of detections through `Track.update` in order, stopping at the
first raised error. -/
def runUpdates (o : List String) (kf : KalmanFilter) (dets : List Detection)
    (t : Track) : Except String Track :=
  dets.foldlM (fun tr d => Track.update o kf d tr) t

/-- One missed frame: `predict` then `mark_missed`, as the orchestrator does
for an unmatched track. -/
def missCycle (kf : KalmanFilter) (t : Track) : Track :=
  (t.predict kf).mark_missed

/-- The boundary guard condition of `Track.predict` on a post-prediction mean:
`to_tlbr[1] < 40 or to_tlbr[0] > 1918`. -/
def boundaryFires (m : Mean8) : Prop :=
  (tlbrOfTlwh (tlwhOfXyah ⟨m.x, m.y, m.a, m.h⟩)).c1 < 40 ∨
    (tlbrOfTlwh (tlwhOfXyah ⟨m.x, m.y, m.a, m.h⟩)).c0 > 1918

/-- The size guard condition of `Track.predict` on a post-prediction mean:
`to_tlwh[3] > 170`. -/
def sizeFires (m : Mean8) : Prop :=
  (tlwhOfXyah ⟨m.x, m.y, m.a, m.h⟩).c3 > 170

instance (m : Mean8) : Decidable (boundaryFires m) := by
  unfold boundaryFires; infer_instance

instance (m : Mean8) : Decidable (sizeFires m) := by
  unfold sizeFires; infer_instance

/-- Modelled from the spec: the tie-break the spec claims for the majority
color — most frequent label, ties broken by insertion order of first
occurrence (first-seen wins). Stated only to compare against the source's
`get_color`. -/
def specFirstSeenMajority (l : List String) : Option String :=
  match l.foldl (fun acc x => if x ∈ acc then acc else acc ++ [x]) [] with
  | [] => none
  | x :: xs => some (pyMaxBy (fun c => l.count c) x xs)

/-- Numeric height of a lifecycle state, ordering Tentative < Confirmed <
Deleted; the legal transition relation is exactly "ord never decreases". -/
def TrackState.ord : TrackState → ℕ
  | TrackState.Tentative => 0
  | TrackState.Confirmed => 1
  | TrackState.Deleted => 2

/-! ### Helper lemmas: field-preservation facts for each operation -/

lemma ord_le_two (s : TrackState) : s.ord ≤ 2 := by
  cases s <;> simp [TrackState.ord]

@[simp] lemma applyMeasurement_state (kf : KalmanFilter) (det : Detection)
    (t : Track) : (t.applyMeasurement kf det).state = t.state := rfl

@[simp] lemma applyMeasurement_hits (kf : KalmanFilter) (det : Detection)
    (t : Track) : (t.applyMeasurement kf det).hits = t.hits := rfl

@[simp] lemma applyMeasurement_time_since_update (kf : KalmanFilter)
    (det : Detection) (t : Track) :
    (t.applyMeasurement kf det).time_since_update = t.time_since_update := rfl

@[simp] lemma applyMeasurement_colors (kf : KalmanFilter) (det : Detection)
    (t : Track) : (t.applyMeasurement kf det).colors = t.colors := rfl

@[simp] lemma applyMeasurement_color_confirmed (kf : KalmanFilter)
    (det : Detection) (t : Track) :
    (t.applyMeasurement kf det).color_confirmed = t.color_confirmed := rfl

@[simp] lemma applyMeasurement_confirmed_color (kf : KalmanFilter)
    (det : Detection) (t : Track) :
    (t.applyMeasurement kf det).confirmed_color = t.confirmed_color := rfl

@[simp] lemma applyMeasurement_last_mean (kf : KalmanFilter) (det : Detection)
    (t : Track) : (t.applyMeasurement kf det).last_mean = t.last_mean := rfl

@[simp] lemma applyMeasurement_last_covariance (kf : KalmanFilter)
    (det : Detection) (t : Track) :
    (t.applyMeasurement kf det).last_covariance = t.last_covariance := rfl

@[simp] lemma applyMeasurement_n_init (kf : KalmanFilter) (det : Detection)
    (t : Track) : (t.applyMeasurement kf det).n_init = t.n_init := rfl

@[simp] lemma applyMeasurement_max_age (kf : KalmanFilter) (det : Detection)
    (t : Track) : (t.applyMeasurement kf det).max_age = t.max_age := rfl

lemma pushColor_state (o : List String) (det : Detection) (t : Track) :
    (t.pushColor o det).state = t.state := by
  unfold Track.pushColor
  cases det.color with
  | none => rfl
  | some c => dsimp only; split <;> split <;> rfl

lemma pushColor_hits (o : List String) (det : Detection) (t : Track) :
    (t.pushColor o det).hits = t.hits := by
  unfold Track.pushColor
  cases det.color with
  | none => rfl
  | some c => dsimp only; split <;> split <;> rfl

lemma pushColor_time_since_update (o : List String) (det : Detection)
    (t : Track) : (t.pushColor o det).time_since_update = t.time_since_update := by
  unfold Track.pushColor
  cases det.color with
  | none => rfl
  | some c => dsimp only; split <;> split <;> rfl

lemma pushColor_mean (o : List String) (det : Detection) (t : Track) :
    (t.pushColor o det).mean = t.mean := by
  unfold Track.pushColor
  cases det.color with
  | none => rfl
  | some c => dsimp only; split <;> split <;> rfl

lemma pushColor_covariance (o : List String) (det : Detection) (t : Track) :
    (t.pushColor o det).covariance = t.covariance := by
  unfold Track.pushColor
  cases det.color with
  | none => rfl
  | some c => dsimp only; split <;> split <;> rfl

lemma pushColor_last_mean (o : List String) (det : Detection) (t : Track) :
    (t.pushColor o det).last_mean = t.last_mean := by
  unfold Track.pushColor
  cases det.color with
  | none => rfl
  | some c => dsimp only; split <;> split <;> rfl

lemma pushColor_last_covariance (o : List String) (det : Detection)
    (t : Track) : (t.pushColor o det).last_covariance = t.last_covariance := by
  unfold Track.pushColor
  cases det.color with
  | none => rfl
  | some c => dsimp only; split <;> split <;> rfl

lemma pushColor_n_init (o : List String) (det : Detection) (t : Track) :
    (t.pushColor o det).n_init = t.n_init := by
  unfold Track.pushColor
  cases det.color with
  | none => rfl
  | some c => dsimp only; split <;> split <;> rfl

lemma pushColor_none (o : List String) (det : Detection) (t : Track)
    (h : det.color = none) : t.pushColor o det = t := by
  unfold Track.pushColor
  rw [h]

lemma pushColor_some_confirmed (o : List String) (det : Detection) (t : Track)
    (c : String) (hc : det.color = some c) (hconf : t.color_confirmed = true)
    (hlen : t.colors.length < 300) :
    t.pushColor o det = { t with colors := t.colors ++ [c] } := by
  unfold Track.pushColor
  rw [hc]
  dsimp only
  rw [if_pos hlen]
  rw [if_neg]
  simp [hconf]

lemma updateAccept_hits (t : Track) : t.updateAccept.hits = t.hits + 1 := by
  unfold Track.updateAccept
  dsimp only; split <;> rfl

lemma updateAccept_time_since_update (t : Track) :
    t.updateAccept.time_since_update = 0 := by
  unfold Track.updateAccept
  dsimp only; split <;> rfl

lemma updateAccept_state (t : Track) :
    t.updateAccept.state = t.state ∨
      (t.state = TrackState.Tentative ∧
        t.updateAccept.state = TrackState.Confirmed) := by
  unfold Track.updateAccept
  dsimp only
  split
  · rename_i h
    exact Or.inr ⟨h.1, rfl⟩
  · exact Or.inl rfl

lemma mark_missed_hits (t : Track) : t.mark_missed.hits = t.hits := by
  unfold Track.mark_missed
  split
  · rfl
  · split <;> rfl

lemma mark_missed_time_since_update (t : Track) :
    t.mark_missed.time_since_update = t.time_since_update := by
  unfold Track.mark_missed
  split
  · rfl
  · split <;> rfl

lemma mark_missed_max_age (t : Track) : t.mark_missed.max_age = t.max_age := by
  unfold Track.mark_missed
  split
  · rfl
  · split <;> rfl

lemma mark_missed_mean (t : Track) : t.mark_missed.mean = t.mean := by
  unfold Track.mark_missed
  split
  · rfl
  · split <;> rfl

lemma mark_missed_covariance (t : Track) :
    t.mark_missed.covariance = t.covariance := by
  unfold Track.mark_missed
  split
  · rfl
  · split <;> rfl

lemma mark_missed_of_confirmed_alive (t : Track)
    (hst : t.state = TrackState.Confirmed)
    (h : t.time_since_update ≤ t.max_age) : t.mark_missed = t := by
  unfold Track.mark_missed
  rw [if_neg (by rw [hst]; intro h; cases h), if_neg (by omega)]

lemma mark_missed_of_confirmed_dead (t : Track)
    (hst : t.state = TrackState.Confirmed)
    (h : t.time_since_update > t.max_age) :
    t.mark_missed = { t with state := TrackState.Deleted } := by
  unfold Track.mark_missed
  rw [if_neg (by rw [hst]; intro h; cases h), if_pos h]

lemma predict_hits (kf : KalmanFilter) (t : Track) :
    (t.predict kf).hits = t.hits := by
  unfold Track.predict
  dsimp only
  split
  · rfl
  · split <;> rfl

lemma predict_max_age (kf : KalmanFilter) (t : Track) :
    (t.predict kf).max_age = t.max_age := by
  unfold Track.predict
  dsimp only
  split
  · rfl
  · split <;> rfl

lemma predict_time_since_update (kf : KalmanFilter) (t : Track) :
    (t.predict kf).time_since_update = t.time_since_update + 1 := by
  unfold Track.predict
  dsimp only
  split
  · rfl
  · split <;> rfl

lemma predict_mean (kf : KalmanFilter) (t : Track) :
    (t.predict kf).mean = (kf.predictFn t.mean t.covariance).1 := by
  unfold Track.predict
  dsimp only
  split
  · rfl
  · split <;> rfl

lemma predict_covariance (kf : KalmanFilter) (t : Track) :
    (t.predict kf).covariance = (kf.predictFn t.mean t.covariance).2 := by
  unfold Track.predict
  dsimp only
  split
  · rfl
  · split <;> rfl

lemma predict_pass_eq (kf : KalmanFilter) (t : Track)
    (hb : ¬ boundaryFires (kf.predictFn t.mean t.covariance).1)
    (hs : ¬ sizeFires (kf.predictFn t.mean t.covariance).1) :
    t.predict kf =
      { t with
        mean := (kf.predictFn t.mean t.covariance).1
        covariance := (kf.predictFn t.mean t.covariance).2
        age := t.age + 1
        time_since_update := t.time_since_update + 1
        last_mean := some (kf.predictFn t.mean t.covariance).1
        last_covariance := some (kf.predictFn t.mean t.covariance).2 } := by
  unfold Track.predict
  dsimp only
  split
  · rename_i h
    exact absurd h hb
  · split
    · rename_i h
      exact absurd h hs
    · rfl

lemma predict_boundary_eq (kf : KalmanFilter) (t : Track)
    (hb : boundaryFires (kf.predictFn t.mean t.covariance).1) :
    t.predict kf =
      { t with
        mean := (kf.predictFn t.mean t.covariance).1
        covariance := (kf.predictFn t.mean t.covariance).2
        age := t.age + 1
        time_since_update := t.time_since_update + 1
        last_mean := some (kf.predictFn t.mean t.covariance).1
        last_covariance := some (kf.predictFn t.mean t.covariance).2
        state := TrackState.Deleted } := by
  unfold Track.predict
  dsimp only
  split
  · rfl
  · rename_i h
    exact absurd hb h

lemma predict_size_eq (kf : KalmanFilter) (t : Track)
    (hb : ¬ boundaryFires (kf.predictFn t.mean t.covariance).1)
    (hs : sizeFires (kf.predictFn t.mean t.covariance).1) :
    t.predict kf =
      { t with
        mean := (kf.predictFn t.mean t.covariance).1
        covariance := (kf.predictFn t.mean t.covariance).2
        age := t.age + 1
        time_since_update := t.time_since_update + 1
        last_mean := some (kf.predictFn t.mean t.covariance).1
        last_covariance := some (kf.predictFn t.mean t.covariance).2
        state := TrackState.Deleted } := by
  unfold Track.predict
  dsimp only
  split
  · rename_i h
    exact absurd h hb
  · split
    · rfl
    · rename_i h
      exact absurd hs h

lemma update_rollback_eq (o : List String) (kf : KalmanFilter) (det : Detection)
    (t : Track) (last : String) (lm : Mean8) (lc : Covariance)
    (hconf : ((t.applyMeasurement kf det).pushColor o det).color_confirmed = true)
    (hlast : ((t.applyMeasurement kf det).pushColor o det).colors.getLast? = some last)
    (hne : ((t.applyMeasurement kf det).pushColor o det).confirmed_color ≠ some last)
    (hlm : ((t.applyMeasurement kf det).pushColor o det).last_mean = some lm)
    (hlc : ((t.applyMeasurement kf det).pushColor o det).last_covariance = some lc) :
    t.update o kf det = Except.ok
      { (t.applyMeasurement kf det).pushColor o det with
        colors := (((t.applyMeasurement kf det).pushColor o det).colors).dropLast
        mean := lm
        covariance := lc
        hits := ((t.applyMeasurement kf det).pushColor o det).hits - 1 } := by
  unfold Track.update
  dsimp only
  rw [if_pos hconf, hlast]
  dsimp only
  rw [if_pos hne, hlm, hlc]

lemma update_accept_of_unconfirmed (o : List String) (kf : KalmanFilter)
    (det : Detection) (t : Track)
    (hconf : ((t.applyMeasurement kf det).pushColor o det).color_confirmed = false) :
    t.update o kf det =
      Except.ok ((t.applyMeasurement kf det).pushColor o det).updateAccept := by
  unfold Track.update
  dsimp only
  rw [if_neg (by simp [hconf])]

lemma update_accept_of_matching (o : List String) (kf : KalmanFilter)
    (det : Detection) (t : Track) (last : String)
    (hconf : ((t.applyMeasurement kf det).pushColor o det).color_confirmed = true)
    (hlast : ((t.applyMeasurement kf det).pushColor o det).colors.getLast? = some last)
    (heq : ((t.applyMeasurement kf det).pushColor o det).confirmed_color = some last) :
    t.update o kf det =
      Except.ok ((t.applyMeasurement kf det).pushColor o det).updateAccept := by
  unfold Track.update
  dsimp only
  rw [if_pos hconf, hlast]
  dsimp only
  rw [if_neg (by simp [heq])]

lemma update_error_of_no_snapshot (o : List String) (kf : KalmanFilter)
    (det : Detection) (t : Track) (last : String)
    (hconf : ((t.applyMeasurement kf det).pushColor o det).color_confirmed = true)
    (hlast : ((t.applyMeasurement kf det).pushColor o det).colors.getLast? = some last)
    (hne : ((t.applyMeasurement kf det).pushColor o det).confirmed_color ≠ some last)
    (hlm : ((t.applyMeasurement kf det).pushColor o det).last_mean = none) :
    t.update o kf det = Except.error "AttributeError" := by
  unfold Track.update
  dsimp only
  rw [if_pos hconf, hlast]
  dsimp only
  rw [if_pos hne, hlm]

lemma update_ok_shape (o : List String) (kf : KalmanFilter) (det : Detection)
    (t t' : Track) (h : t.update o kf det = Except.ok t') :
    t' = ((t.applyMeasurement kf det).pushColor o det).updateAccept ∨
      ∃ lm lc,
        ((t.applyMeasurement kf det).pushColor o det).last_mean = some lm ∧
        ((t.applyMeasurement kf det).pushColor o det).last_covariance = some lc ∧
        t' = { (t.applyMeasurement kf det).pushColor o det with
               colors := (((t.applyMeasurement kf det).pushColor o det).colors).dropLast
               mean := lm
               covariance := lc
               hits := ((t.applyMeasurement kf det).pushColor o det).hits - 1 } := by
  unfold Track.update at h
  dsimp only at h
  split at h
  · split at h
    · exact Except.noConfusion h
    · split at h
      · split at h
        · rename_i lm lc hlm hlc
          cases h
          exact Or.inr ⟨lm, lc, hlm, hlc, rfl⟩
        · exact Except.noConfusion h
      · cases h
        exact Or.inl rfl
  · cases h
    exact Or.inl rfl

lemma update_ok_hits (o : List String) (kf : KalmanFilter) (det : Detection)
    (t t' : Track) (h : t.update o kf det = Except.ok t') :
    t'.hits = t.hits + 1 ∨ t'.hits = t.hits - 1 := by
  rcases update_ok_shape o kf det t t' h with h1 | ⟨lm, lc, _, _, h1⟩
  · left
    rw [h1, updateAccept_hits, pushColor_hits, applyMeasurement_hits]
  · right
    rw [h1]
    dsimp only
    rw [pushColor_hits, applyMeasurement_hits]

lemma update_ok_state (o : List String) (kf : KalmanFilter) (det : Detection)
    (t t' : Track) (h : t.update o kf det = Except.ok t') :
    t'.state = t.state ∨
      (t.state = TrackState.Tentative ∧ t'.state = TrackState.Confirmed) := by
  rcases update_ok_shape o kf det t t' h with h1 | ⟨lm, lc, _, _, h1⟩
  · rw [h1]
    rcases updateAccept_state ((t.applyMeasurement kf det).pushColor o det) with
      h2 | ⟨h2, h3⟩
    · left
      rw [h2, pushColor_state, applyMeasurement_state]
    · right
      rw [pushColor_state, applyMeasurement_state] at h2
      exact ⟨h2, h3⟩
  · left
    rw [h1]
    dsimp only
    rw [pushColor_state, applyMeasurement_state]

/-! ### Majority-vote lemmas for `get_color` -/

lemma pyMaxBy_cons (key : String → ℕ) (x y : String) (ys : List String) :
    pyMaxBy key x (y :: ys) = pyMaxBy key (if key x < key y then y else x) ys := rfl

lemma pyMaxBy_mem (key : String → ℕ) (x : String) (xs : List String) :
    pyMaxBy key x xs ∈ x :: xs := by
  induction xs generalizing x with
  | nil => simp [pyMaxBy]
  | cons y ys ih =>
    rw [pyMaxBy_cons]
    rcases List.mem_cons.mp (ih (if key x < key y then y else x)) with h1 | h1
    · rw [h1]
      by_cases hk : key x < key y
      · rw [if_pos hk]
        exact List.mem_cons_of_mem _ (List.mem_cons_self _ _)
      · rw [if_neg hk]
        exact List.mem_cons_self _ _
    · exact List.mem_cons_of_mem _ (List.mem_cons_of_mem _ h1)

lemma pyMaxBy_le (key : String → ℕ) (x : String) (xs : List String) :
    ∀ y ∈ x :: xs, key y ≤ key (pyMaxBy key x xs) := by
  induction xs generalizing x with
  | nil =>
    intro y hy
    rw [List.mem_singleton.mp hy]
    exact le_of_eq rfl
  | cons z zs ih =>
    intro y hy
    rw [pyMaxBy_cons]
    have hstep : key x ≤ key (if key x < key z then z else x) ∧
        key z ≤ key (if key x < key z then z else x) := by
      by_cases hk : key x < key z
      · rw [if_pos hk]
        exact ⟨le_of_lt hk, le_refl _⟩
      · rw [if_neg hk]
        exact ⟨le_refl _, le_of_not_lt hk⟩
    have htop := ih (if key x < key z then z else x) _ (List.mem_cons_self _ _)
    rcases List.mem_cons.mp hy with h1 | h1
    · rw [h1]
      exact le_trans hstep.1 htop
    · rcases List.mem_cons.mp h1 with h2 | h2
      · rw [h2]
        exact le_trans hstep.2 htop
      · exact ih _ y (List.mem_cons_of_mem _ h2)

lemma get_color_eq_pyMaxBy (t : Track) (x : String) (xs : List String)
    (hnc : t.color_confirmed = false) (hne : t.colors ≠ []) :
    t.get_color (x :: xs) =
      some (pyMaxBy (fun c => t.colors.count c) x xs) := by
  unfold Track.get_color
  rw [if_neg (by simp [hnc])]
  cases hcol : t.colors with
  | nil => exact absurd hcol hne
  | cons c cs => rfl

/-! ### Fixtures for the concrete scenario runs -/

/-- The C3 scenario track: `n_init = 3`, `max_age = 5`, no initial feature or
color. -/
def t3 : Track := Track.init m0 cov0 1 3 5 none none none

/-- The concrete result of one colorless accepted update on `t3`. -/
def t3u : Track := { t3 with hits := 2, time_since_update := 0, features := [[0]] }

/-- A deleted copy of `t3`, for exercising terminality. -/
def tDel : Track := { t3 with state := TrackState.Deleted }

/-- The hits-can-go-negative run: construct with color "red", one predict,
16 matching "red" updates (confirming "red"), then 18 mismatching "blue"
updates, each of which is rolled back and decrements `hits`. -/
def t2neg : Except String Track :=
  runUpdates ["red"] idKF
    (List.replicate 16 (detC "red") ++ List.replicate 18 (detC "blue"))
    ((Track.init m0 cov0 2 3 30 none none (some "red")).predict idKF)

/-- An unconfirmed track holding one "red" and one "blue" vote (a tie). -/
def t7 : Track := { t3 with colors := ["red", "blue"] }

/-- An unconfirmed track holding two "red" votes and one "blue" vote. -/
def t7w : Track := { t3 with colors := ["red", "red", "blue"] }

/-! ### C3 -/

/-- C3 (counterexample): a track created with `n_init = 3`, `max_age = 5` that
receives 3 accepted updates ends Confirmed but with `hits = 4`, not 3: the
constructor already sets `hits = 1`, and each accepted update adds one. -/
theorem three_updates_hits_ne_three :
    (runUpdates [] idKF [det0, det0, det0] t3).toOption.map
        (fun u => (u.state, u.hits)) = some (TrackState.Confirmed, 4) ∧
      (4 : ℤ) ≠ 3 := ⟨rfl, by decide⟩

/-- C3 (amended): a track created with `n_init = 3` and `max_age = 5` that
receives 3 accepted updates ends with `state = Confirmed` and `hits = 4`
(creation counts as the first hit). -/
theorem three_updates_confirmed_hits_four :
    (runUpdates [] idKF [det0, det0, det0] t3).toOption.map Track.state =
        some TrackState.Confirmed ∧
      (runUpdates [] idKF [det0, det0, det0] t3).toOption.map Track.hits =
        some 4 := ⟨rfl, rfl⟩

/-! ### C2 -/

lemma m0_passes_boundary : ¬ boundaryFires m0 := by
  norm_num [boundaryFires, tlbrOfTlwh, tlwhOfXyah, m0]

lemma m0_passes_size : ¬ sizeFires m0 := by
  norm_num [sizeFires, tlwhOfXyah, m0]

lemma t2neg_hits : t2neg.toOption.map Track.hits = some (-1) := by
  unfold t2neg
  rw [predict_pass_eq idKF (Track.init m0 cov0 2 3 30 none none (some "red"))
    m0_passes_boundary m0_passes_size]
  rfl

/-- C2 (counterexample): `hits` does go negative. After confirmation at
`hits = 17`, eighteen consecutive color-mismatch rollbacks drive `hits`
to `-1 < 0`. -/
theorem hits_can_go_negative :
    t2neg.toOption.map Track.hits = some (-1) ∧ (-1 : ℤ) < 0 :=
  ⟨t2neg_hits, by decide⟩

/-- C2 (amended): per-operation behaviour of `hits` — unchanged by `predict`
and `mark_missed`, changed by exactly `+1` (accepted) or `-1` (rejected) on a
returning `update`; but there is no lower bound: the `t2neg` run ends at
`hits = -1`. -/
theorem hits_step_characterization (o : List String) (kf : KalmanFilter)
    (det : Detection) (t t' : Track) :
    (t.predict kf).hits = t.hits ∧
    t.mark_missed.hits = t.hits ∧
    (t.update o kf det = Except.ok t' →
      t'.hits = t.hits + 1 ∨ t'.hits = t.hits - 1) ∧
    t2neg.toOption.map Track.hits = some (-1) :=
  ⟨predict_hits kf t, mark_missed_hits t, update_ok_hits o kf det t t',
   t2neg_hits⟩

/-- Witness for the C2 amended theorem at a concrete input. -/
theorem hits_step_characterization_witness :
    t3.mark_missed.hits = t3.hits ∧
    (t3u.hits = t3.hits + 1 ∨ t3u.hits = t3.hits - 1) :=
  ⟨(hits_step_characterization [] idKF det0 t3 t3u).2.1,
   (hits_step_characterization [] idKF det0 t3 t3u).2.2.1 rfl⟩

/-! ### C8 -/

/-- C8 (counterexample): the claimed round-trip `to_tlbr (to_tlwh b) = b`
fails already at the box `b = (0, 0, 1, 1)`: the composite yields
`(-1/2, -1/2, 1/2, 1/2)`. -/
theorem tlwh_tlbr_roundtrip_fails :
    tlbrOfTlwh (tlwhOfXyah ⟨0, 0, 1, 1⟩) ≠ (⟨0, 0, 1, 1⟩ : Vec4) := by
  intro hcontra
  simp only [tlwhOfXyah, tlbrOfTlwh, Vec4.mk.injEq] at hcontra
  norm_num at hcontra

/-- C8 (amended): `to_tlbr` is derived from `to_tlwh` by
`(tlx, tly, tlx + w, tly + h)`, `to_tlwh` computes
`(cx - a*h/2, cy - h/2, a*h, h)` from `mean`, and both are pure projections of
`mean`: tracks with equal means have equal boxes. The composite is not the
identity (see the counterexample). -/
theorem to_tlbr_derived_pure (t t' : Track) (h : t.mean = t'.mean) :
    t.to_tlbr = tlbrOfTlwh t.to_tlwh ∧
    t.to_tlwh = tlwhOfXyah ⟨t.mean.x, t.mean.y, t.mean.a, t.mean.h⟩ ∧
    t.to_tlwh = t'.to_tlwh ∧
    t.to_tlbr = t'.to_tlbr := by
  refine ⟨rfl, rfl, ?_, ?_⟩
  · unfold Track.to_tlwh
    rw [h]
  · unfold Track.to_tlbr Track.to_tlwh
    rw [h]

/-- Witness for the C8 amended theorem at concrete tracks. -/
theorem to_tlbr_derived_pure_witness :
    t3.to_tlwh = ({ t3 with hits := 99 } : Track).to_tlwh :=
  (to_tlbr_derived_pure t3 { t3 with hits := 99 } rfl).2.2.1

/-! ### C7 -/

/-- C7 (counterexample): on the tied history `["red", "blue"]`,
`max(set(colors), key=count)` returns whichever maximal element the set
iteration order lists first: for the admissible order `["blue", "red"]` it
returns "blue", while the claimed first-seen tie-break demands "red". -/
theorem get_color_depends_on_set_order :
    isSetOrder ["blue", "red"] t7.colors ∧
    t7.get_color ["blue", "red"] = some "blue" ∧
    specFirstSeenMajority t7.colors = some "red" ∧
    ("blue" : String) ≠ "red" := by
  refine ⟨⟨by decide, fun x => ?_⟩, rfl, rfl, by decide⟩
  show x ∈ ["blue", "red"] ↔ x ∈ ["red", "blue"]
  simp only [List.mem_cons, List.not_mem_nil, or_false]
  tauto

/-- C7 (amended): when one label has a strictly highest count, `get_color`
returns it for every admissible set-iteration order; only ties depend on the
(unspecified, hash-driven) order of `set(colors)`. -/
theorem get_color_unique_majority (t : Track) (o : List String) (m : String)
    (hnc : t.color_confirmed = false) (ho : isSetOrder o t.colors)
    (hm : m ∈ t.colors)
    (huniq : ∀ y, y ∈ t.colors → y ≠ m →
      t.colors.count y < t.colors.count m) :
    t.get_color o = some m := by
  have hmo : m ∈ o := (ho.2 m).mpr hm
  have hne : t.colors ≠ [] := fun h => by rw [h] at hm; cases hm
  cases o with
  | nil => cases hmo
  | cons x xs =>
    rw [get_color_eq_pyMaxBy t x xs hnc hne]
    have hrmem := pyMaxBy_mem (fun c => t.colors.count c) x xs
    have hrc : pyMaxBy (fun c => t.colors.count c) x xs ∈ t.colors :=
      (ho.2 _).mp hrmem
    by_cases hrm : pyMaxBy (fun c => t.colors.count c) x xs = m
    · rw [hrm]
    · exfalso
      have h1 := huniq _ hrc hrm
      have h2 := pyMaxBy_le (fun c => t.colors.count c) x xs m hmo
      dsimp only at h2
      omega

/-- Witness for the C7 amended theorem: two "red" votes beat one "blue" vote
even under the order that lists "blue" first. -/
theorem get_color_unique_majority_witness :
    t7w.get_color ["blue", "red"] = some "red" := by
  apply get_color_unique_majority t7w ["blue", "red"] "red" rfl
  · refine ⟨by decide, fun x => ?_⟩
    show x ∈ ["blue", "red"] ↔ x ∈ ["red", "red", "blue"]
    simp only [List.mem_cons, List.not_mem_nil, or_false]
    tauto
  · show ("red" : String) ∈ ["red", "red", "blue"]
    simp
  · intro y hy hne
    have hy' : y ∈ ["red", "red", "blue"] := hy
    fin_cases hy' <;> first | exact absurd rfl hne | decide

lemma predict_state_cases (kf : KalmanFilter) (t : Track) :
    (t.predict kf).state = t.state ∨
      (t.predict kf).state = TrackState.Deleted := by
  unfold Track.predict
  dsimp only
  split
  · exact Or.inr rfl
  · split
    · exact Or.inr rfl
    · exact Or.inl rfl

lemma mark_missed_state_cases (t : Track) :
    t.mark_missed.state = t.state ∨
      t.mark_missed.state = TrackState.Deleted := by
  unfold Track.mark_missed
  split
  · exact Or.inr rfl
  · split
    · exact Or.inr rfl
    · exact Or.inl rfl

/-! ### C4 -/

/-- C4 (confirmed): lifecycle transitions are monotone in the order
Tentative < Confirmed < Deleted under each of the three operations (so the
only moves are Tentative → Confirmed, Tentative → Deleted,
Confirmed → Deleted), and Deleted is terminal for all of them. -/
theorem state_transitions_monotone (o : List String) (kf : KalmanFilter)
    (det : Detection) (t t' : Track) :
    t.state.ord ≤ (t.predict kf).state.ord ∧
    t.state.ord ≤ t.mark_missed.state.ord ∧
    (t.update o kf det = Except.ok t' → t.state.ord ≤ t'.state.ord) ∧
    (t.state = TrackState.Deleted →
      (t.predict kf).state = TrackState.Deleted ∧
      t.mark_missed.state = TrackState.Deleted ∧
      (t.update o kf det = Except.ok t' → t'.state = TrackState.Deleted)) := by
  have hpred := predict_state_cases kf t
  have hmiss := mark_missed_state_cases t
  refine ⟨?_, ?_, fun h => ?_, fun hdel => ⟨?_, ?_, fun h => ?_⟩⟩
  · rcases hpred with h1 | h1 <;> rw [h1]
    exact ord_le_two _
  · rcases hmiss with h1 | h1 <;> rw [h1]
    exact ord_le_two _
  · rcases update_ok_state o kf det t t' h with h1 | ⟨h1, h2⟩
    · rw [h1]
    · rw [h1, h2]
      decide
  · rcases hpred with h1 | h1 <;> rw [h1]
    exact hdel
  · rcases hmiss with h1 | h1 <;> rw [h1]
    exact hdel
  · rcases update_ok_state o kf det t t' h with h1 | ⟨h1, h2⟩
    · rw [h1, hdel]
    · rw [hdel] at h1
      cases h1

/-! ### C6 -/

/-- C6 (confirmed): after the estimator step of `predict`, the boundary guard
(top edge above 40 or left edge beyond 1918) deletes the track regardless of
prior state, taking precedence over the size guard; otherwise the size guard
(height above 170) deletes it; if neither fires the state is untouched. -/
theorem predict_guard_characterization (kf : KalmanFilter) (t : Track) :
    (boundaryFires (kf.predictFn t.mean t.covariance).1 →
      (t.predict kf).state = TrackState.Deleted) ∧
    (¬ boundaryFires (kf.predictFn t.mean t.covariance).1 →
      sizeFires (kf.predictFn t.mean t.covariance).1 →
      (t.predict kf).state = TrackState.Deleted) ∧
    (¬ boundaryFires (kf.predictFn t.mean t.covariance).1 →
      ¬ sizeFires (kf.predictFn t.mean t.covariance).1 →
      (t.predict kf).state = t.state) := by
  refine ⟨fun hb => ?_, fun hb hs => ?_, fun hb hs => ?_⟩
  · rw [predict_boundary_eq kf t hb]
  · rw [predict_size_eq kf t hb hs]
  · rw [predict_pass_eq kf t hb hs]

/-- A Confirmed track whose box top edge sits at y = 10 (above the threshold
40): the boundary guard must fire. -/
def tG : Track :=
  { t3 with mean := ⟨100, 35, 1, 50, 0, 0, 0, 0⟩, state := TrackState.Confirmed }

/-- A track whose box passes the boundary guard but has height 200 > 170: the
size guard must fire. -/
def tH : Track := { t3 with mean := ⟨500, 500, 1, 200, 0, 0, 0, 0⟩ }

/-- Witness for C6: the boundary guard deletes `tG` (top edge y = 10 < 40)
and the size guard deletes `tH` (height 200 > 170). -/
theorem predict_guard_characterization_witness :
    (tG.predict idKF).state = TrackState.Deleted ∧
    (tH.predict idKF).state = TrackState.Deleted := by
  constructor
  · refine (predict_guard_characterization idKF tG).1 ?_
    show boundaryFires (⟨100, 35, 1, 50, 0, 0, 0, 0⟩ : Mean8)
    norm_num [boundaryFires, tlbrOfTlwh, tlwhOfXyah]
  · refine (predict_guard_characterization idKF tH).2.1 ?_ ?_
    · show ¬ boundaryFires (⟨500, 500, 1, 200, 0, 0, 0, 0⟩ : Mean8)
      norm_num [boundaryFires, tlbrOfTlwh, tlwhOfXyah]
    · show sizeFires (⟨500, 500, 1, 200, 0, 0, 0, 0⟩ : Mean8)
      norm_num [sizeFires, tlwhOfXyah]

/-! ### C1 -/

/-- A Confirmed track with one stale mismatching color vote at the top of its
history and a recorded post-predict snapshot. -/
def t1c : Track :=
  { t3 with
    state := TrackState.Confirmed
    hits := 15
    time_since_update := 1
    colors := ["red", "blue"]
    color_confirmed := true
    confirmed_color := some "red"
    last_mean := some m0
    last_covariance := some cov0 }

/-- C1 (counterexample): an update with no detection color still takes the
rollback branch (its `hits` drops 15 → 14) but then `colors` shrinks from
length 2 to length 1 — the pop removes a color pushed by an *earlier* call,
so `colors` is not unchanged in length. -/
theorem colorless_rollback_shrinks_colors :
    (Track.update [] idKF det0 t1c).toOption.map
        (fun u => (u.colors.length, u.hits, u.time_since_update, u.state)) =
      some (1, 14, 1, TrackState.Confirmed) ∧
    t1c.colors.length = 2 ∧ (1 : ℕ) ≠ 2 := ⟨rfl, rfl, by decide⟩

/-- C1 (amended): for a confirmed track whose update carries a color that
differs from `confirmed_color`, with `colors` below its 300 cap and a
post-predict snapshot present, the rollback leaves `colors` unchanged in
length, restores `mean`/`covariance` from the snapshot, decrements `hits` by
one, and leaves `time_since_update` and `state` unchanged. (The length claim
fails for a colorless rolled-back update — see the counterexample — and at
the 300 cap, where the eviction of the oldest color is not undone.) -/
theorem rollback_postconditions (o : List String) (kf : KalmanFilter)
    (det : Detection) (t : Track) (c : String) (lm : Mean8) (lc : Covariance)
    (hconf : t.color_confirmed = true) (hc : det.color = some c)
    (hlen : t.colors.length < 300)
    (hlm : t.last_mean = some lm) (hlc : t.last_covariance = some lc)
    (hmis : t.confirmed_color ≠ some c) :
    ∃ t', t.update o kf det = Except.ok t' ∧
      t'.colors.length = t.colors.length ∧
      t'.mean = lm ∧ t'.covariance = lc ∧
      t'.hits = t.hits - 1 ∧
      t'.time_since_update = t.time_since_update ∧
      t'.state = t.state := by
  have hE := pushColor_some_confirmed o det (t.applyMeasurement kf det) c hc
    hconf hlen
  have h1 := update_rollback_eq o kf det t c lm lc
    (by rw [hE]; exact hconf)
    (by rw [hE]; exact List.getLast?_concat _)
    (by rw [hE]; exact hmis)
    (by rw [hE]; exact hlm)
    (by rw [hE]; exact hlc)
  rw [hE] at h1
  refine ⟨_, h1, ?_, rfl, rfl, rfl, rfl, rfl⟩
  show ((t.colors ++ [c]).dropLast).length = t.colors.length
  rw [List.dropLast_concat]

/-- Witness for the C1 amended theorem: a "blue" detection on a
"red"-confirmed track is rolled back with all the stated postconditions. -/
theorem rollback_postconditions_witness :
    (Track.update [] idKF (detC "blue") t1c).toOption.map
        (fun u => (u.colors.length, u.hits, u.mean)) = some (2, 14, m0) := by
  obtain ⟨t', ht, hlen, hmean, hcov, hhits, htsu, hstate⟩ :=
    rollback_postconditions [] idKF (detC "blue") t1c "blue" m0 cov0 rfl rfl
      (by decide) rfl rfl (by decide)
  rw [ht]
  show some (t'.colors.length, t'.hits, t'.mean) = some (2, 14, m0)
  rw [hlen, hhits, hmean]
  rfl

/-! ### C9 -/

/-- Start track of the C9 reachability run. -/
def t9start : Track := Track.init m0 cov0 9 3 30 none none (some "red")

/-- The C9 run: construct with "red", predict, then 8 "red" and 8 "blue"
votes (the 16th update confirms "red" with counts 9 : 8 and rolls its own
"blue" push back), then one colorless update, which is itself rolled back. -/
def t9run : Except String Track :=
  runUpdates ["red", "blue"] idKF
    (List.replicate 8 (detC "red") ++ List.replicate 8 (detC "blue") ++ [det0])
    (t9start.predict idKF)

lemma t9run_eval :
    t9run.toOption.map
        (fun u => (u.hits, u.colors.length, u.colors.getLast?)) =
      some (14, 15, some "blue") := by
  unfold t9run
  rw [predict_pass_eq idKF t9start m0_passes_boundary m0_passes_size]
  rfl

/-- C9 (confirmed): for a confirmed track, an update carrying no color label
is rolled back exactly when the stored `colors[-1]` differs from
`confirmed_color` — the guard never looks at the detection's own color — and
such a state is reachable: in the `t9run` scenario the confirming update
freezes "red" while its own "blue" push is popped, leaving "blue" on top, and
the subsequent colorless update is rolled back (`hits` 15 → 14, one more
stale color popped). -/
theorem rollback_tests_stored_color (o : List String) (kf : KalmanFilter)
    (det : Detection) (t : Track) (last : String) (lm : Mean8)
    (lc : Covariance) (hcol : det.color = none)
    (hconf : t.color_confirmed = true)
    (hlast : t.colors.getLast? = some last)
    (hlm : t.last_mean = some lm) (hlc : t.last_covariance = some lc) :
    (t.confirmed_color ≠ some last →
      t.update o kf det = Except.ok
        { t.applyMeasurement kf det with
          colors := t.colors.dropLast
          mean := lm
          covariance := lc
          hits := t.hits - 1 }) ∧
    (t.confirmed_color = some last →
      t.update o kf det =
        Except.ok (t.applyMeasurement kf det).updateAccept) ∧
    t9run.toOption.map
        (fun u => (u.hits, u.colors.length, u.colors.getLast?)) =
      some (14, 15, some "blue") := by
  have hE : (t.applyMeasurement kf det).pushColor o det =
      t.applyMeasurement kf det := pushColor_none o det _ hcol
  refine ⟨fun hne => ?_, fun heq => ?_, t9run_eval⟩
  · have h1 := update_rollback_eq o kf det t last lm lc
      (by rw [hE]; exact hconf) (by rw [hE]; exact hlast)
      (by rw [hE]; exact hne) (by rw [hE]; exact hlm)
      (by rw [hE]; exact hlc)
    rw [hE] at h1
    exact h1
  · have h1 := update_accept_of_matching o kf det t last
      (by rw [hE]; exact hconf) (by rw [hE]; exact hlast)
      (by rw [hE]; exact heq)
    rw [hE] at h1
    exact h1

/-- Witness for C9 at a concrete confirmed track: the colorless `det0` is
rolled back on `t1c` since its stored top color "blue" differs from the
confirmed "red". -/
theorem rollback_tests_stored_color_witness :
    Track.update [] idKF det0 t1c = Except.ok
      { t1c.applyMeasurement idKF det0 with
        colors := t1c.colors.dropLast
        mean := m0
        covariance := cov0
        hits := t1c.hits - 1 } :=
  (rollback_tests_stored_color [] idKF det0 t1c "blue" m0 cov0 rfl rfl rfl
    rfl rfl).1 (by decide)

/-! ### C10 -/

/-- A confirmed track that has never been predicted: no
`last_mean`/`last_covariance` snapshot exists yet. -/
def tA : Track :=
  { t3 with
    colors := ["blue"]
    color_confirmed := true
    confirmed_color := some "red" }

/-- C10 (confirmed): if the rollback branch is reached while no
`last_mean` snapshot exists (predict never ran), `update` raises
`AttributeError` instead of returning; concretely, 16 "red" updates followed
by one "blue" update straight after construction (the 17th both confirms
"red" and mismatches) die with `AttributeError`. -/
theorem rollback_without_predict_attribute_error (o : List String)
    (kf : KalmanFilter) (det : Detection) (t : Track) (last : String)
    (hconf : ((t.applyMeasurement kf det).pushColor o det).color_confirmed = true)
    (hlast : ((t.applyMeasurement kf det).pushColor o det).colors.getLast? =
      some last)
    (hne : ((t.applyMeasurement kf det).pushColor o det).confirmed_color ≠
      some last)
    (hlm : ((t.applyMeasurement kf det).pushColor o det).last_mean = none) :
    t.update o kf det = Except.error "AttributeError" ∧
    runUpdates ["red", "blue"] idKF
        (List.replicate 16 (detC "red") ++ [detC "blue"])
        (Track.init m0 cov0 10 3 30 none none none) =
      Except.error "AttributeError" :=
  ⟨update_error_of_no_snapshot o kf det t last hconf hlast hne hlm, rfl⟩

/-- Witness for C10 at a concrete track: updating the never-predicted
confirmed track `tA` with a colorless detection reaches the rollback branch
and raises. -/
theorem rollback_without_predict_attribute_error_witness :
    Track.update [] idKF det0 tA = Except.error "AttributeError" :=
  (rollback_without_predict_attribute_error [] idKF det0 tA "blue" rfl rfl
    (by decide) rfl).1

/-- Witness for C4: the accepted first update on the fresh track `t3` keeps
`ord` non-decreasing, and `mark_missed` on a Deleted track leaves it
Deleted. -/
theorem state_transitions_monotone_witness :
    t3.state.ord ≤ t3u.state.ord ∧
    tDel.mark_missed.state = TrackState.Deleted :=
  ⟨(state_transitions_monotone [] idKF det0 t3 t3u).2.2.1 rfl,
   ((state_transitions_monotone [] idKF det0 tDel tDel).2.2.2 rfl).2.1⟩

/-! ### C5 -/

lemma missCycle_max_age (kf : KalmanFilter) (t : Track) :
    (missCycle kf t).max_age = t.max_age := by
  unfold missCycle
  rw [mark_missed_max_age, predict_max_age]

lemma missCycle_alive_step (kf : KalmanFilter) (u : Track)
    (hs : u.state = TrackState.Confirmed)
    (hb : ¬ boundaryFires (kf.predictFn u.mean u.covariance).1)
    (hsz : ¬ sizeFires (kf.predictFn u.mean u.covariance).1)
    (halive : u.time_since_update + 1 ≤ u.max_age) :
    (missCycle kf u).state = TrackState.Confirmed ∧
    (missCycle kf u).time_since_update = u.time_since_update + 1 := by
  unfold missCycle
  rw [predict_pass_eq kf u hb hsz]
  rw [mark_missed_of_confirmed_alive]
  · exact ⟨hs, rfl⟩
  · exact hs
  · exact halive

lemma missCycle_dead_step (kf : KalmanFilter) (u : Track)
    (hs : u.state = TrackState.Confirmed)
    (hb : ¬ boundaryFires (kf.predictFn u.mean u.covariance).1)
    (hsz : ¬ sizeFires (kf.predictFn u.mean u.covariance).1)
    (hdead : u.max_age < u.time_since_update + 1) :
    (missCycle kf u).state = TrackState.Deleted ∧
    (missCycle kf u).time_since_update = u.time_since_update + 1 := by
  unfold missCycle
  rw [predict_pass_eq kf u hb hsz]
  rw [mark_missed_of_confirmed_dead]
  · exact ⟨rfl, rfl⟩
  · exact hs
  · exact hdead

/-- C5 (confirmed): a Confirmed track with `time_since_update = 0` whose
predicts all pass the guards stays Confirmed through exactly `max_age`
missed frames (predict-then-mark_missed cycles) and becomes Deleted on the
miss that pushes `time_since_update` to `max_age + 1`. -/
theorem confirmed_survives_exactly_max_age (kf : KalmanFilter) (t : Track)
    (hst : t.state = TrackState.Confirmed) (htsu : t.time_since_update = 0)
    (hguards : ∀ i, i ≤ t.max_age →
      ¬ boundaryFires (kf.predictFn ((missCycle kf)^[i] t).mean
          ((missCycle kf)^[i] t).covariance).1 ∧
      ¬ sizeFires (kf.predictFn ((missCycle kf)^[i] t).mean
          ((missCycle kf)^[i] t).covariance).1) :
    (∀ k, k ≤ t.max_age →
      ((missCycle kf)^[k] t).state = TrackState.Confirmed ∧
      ((missCycle kf)^[k] t).time_since_update = k) ∧
    ((missCycle kf)^[t.max_age + 1] t).state = TrackState.Deleted ∧
    ((missCycle kf)^[t.max_age + 1] t).time_since_update = t.max_age + 1 := by
  have hmax : ∀ k, ((missCycle kf)^[k] t).max_age = t.max_age := by
    intro k
    induction k with
    | zero => rfl
    | succ n ih => rw [Function.iterate_succ_apply', missCycle_max_age, ih]
  have hP : ∀ k, k ≤ t.max_age →
      ((missCycle kf)^[k] t).state = TrackState.Confirmed ∧
      ((missCycle kf)^[k] t).time_since_update = k := by
    intro k
    induction k with
    | zero => exact fun _ => ⟨hst, htsu⟩
    | succ n ih =>
      intro hn
      have hn' := Nat.le_of_succ_le hn
      obtain ⟨hs1, ht1⟩ := ih hn'
      obtain ⟨hb, hsz⟩ := hguards n hn'
      rw [Function.iterate_succ_apply']
      have hstep := missCycle_alive_step kf _ hs1 hb hsz
        (by rw [ht1, hmax n]; exact hn)
      exact ⟨hstep.1, by rw [hstep.2, ht1]⟩
  refine ⟨hP, ?_⟩
  obtain ⟨hsM, htM⟩ := hP t.max_age (le_refl _)
  obtain ⟨hb, hsz⟩ := hguards t.max_age (le_refl _)
  have hstep := missCycle_dead_step kf ((missCycle kf)^[t.max_age] t) hsM hb
    hsz (by rw [htM, hmax t.max_age]; omega)
  rw [Function.iterate_succ_apply']
  exact ⟨hstep.1, by rw [hstep.2, htM]⟩

lemma missCycle_idKF_mean (t : Track) : (missCycle idKF t).mean = t.mean := by
  unfold missCycle
  rw [mark_missed_mean, predict_mean]
  rfl

lemma missCycle_idKF_covariance (t : Track) :
    (missCycle idKF t).covariance = t.covariance := by
  unfold missCycle
  rw [mark_missed_covariance, predict_covariance]
  rfl

lemma iterate_missCycle_idKF_mean (t : Track) (k : ℕ) :
    ((missCycle idKF)^[k] t).mean = t.mean := by
  induction k with
  | zero => rfl
  | succ n ih => rw [Function.iterate_succ_apply', missCycle_idKF_mean, ih]

/-- The C5 scenario track: Confirmed, `time_since_update = 0`,
`max_age = 2`, benign geometry. -/
def t5 : Track := { t3 with state := TrackState.Confirmed, max_age := 2 }

/-- Witness for C5 at `max_age = 2`: still Confirmed after 2 missed frames,
Deleted on the 3rd. -/
theorem confirmed_survives_exactly_max_age_witness :
    ((missCycle idKF)^[2] t5).state = TrackState.Confirmed ∧
    ((missCycle idKF)^[3] t5).state = TrackState.Deleted := by
  have h := confirmed_survives_exactly_max_age idKF t5 rfl rfl ?hg
  · exact ⟨(h.1 2 (by decide)).1, h.2.1⟩
  case hg =>
    intro i hi
    constructor
    · show ¬ boundaryFires ((missCycle idKF)^[i] t5).mean
      rw [iterate_missCycle_idKF_mean]
      exact m0_passes_boundary
    · show ¬ sizeFires ((missCycle idKF)^[i] t5).mean
      rw [iterate_missCycle_idKF_mean]
      exact m0_passes_size

end DeepSort
